import Mathlib

/-!
Shallow embedding of the conditional-validation core of the
play-customer-interaction-form repository:

* `src/lib/validation.ts` — the zod `baseSchema` and the chained
  `.refine` calls forming `interactionSchema`;
* `src/app/api/interactions/route.ts` — the `POST` handler;
* the `InteractionsPage` form component — the conditional rendering
  of fields driven by the watched `channel`, `category`, `purchased`.

JSON request bodies are modelled as a record of optional, well-typed
fields (`RawInput`); zod's object parse first checks presence and
length bounds of every key (aggregating the issues in key order) and,
only when that succeeds, runs the chained refinements in order,
aggregating every failing refinement's issue.  String length is
measured in characters (the inputs of interest are ASCII, where this
coincides with JavaScript's UTF-16 length).
-/

namespace PlayForm

/-- A zod validation issue: the field path it is attributed to and its
human-readable message.  All paths in this schema have length one, so a
single string suffices. -/
structure Issue where
  path : String
  message : String
deriving Repr, DecidableEq

/-- The raw JSON body of a submission request.  Every key may be absent
(`none`).  A `timestamp` key may be supplied by the client; it is not
part of the zod shape, so the parse strips it. -/
structure RawInput where
  staffName : Option String
  channel : Option String
  otherChannel : Option String
  branch : Option String
  category : Option String
  otherCategory : Option String
  purchased : Option Bool
  outOfStock : Option Bool
  wantedItem : Option String
  timestamp : Option String
deriving Repr, DecidableEq

/-- The output of a successful `baseSchema` parse (zod strips the
unknown `timestamp` key; required string fields are now plain
strings). -/
structure InteractionForm where
  staffName : String
  channel : String
  otherChannel : Option String
  branch : Option String
  category : String
  otherCategory : Option String
  purchased : Option Bool
  outOfStock : Option Bool
  wantedItem : String
deriving Repr, DecidableEq

/-- One zod check: an empty issue list when the predicate holds, the
given issue otherwise. -/
def check (ok : Bool) (i : Issue) : List Issue :=
  if ok then [] else [i]

/-- zod's default message for a missing required key. -/
def requiredMsg : String := "Required"

/-- zod's default message for `z.string().min n`. -/
def tooSmallMsg (n : Nat) : String :=
  "String must contain at least " ++ toString n ++ " character(s)"

/-- zod's default message for `z.string().max n`. -/
def tooBigMsg (n : Nat) : String :=
  "String must contain at most " ++ toString n ++ " character(s)"

/-- `z.string().max n .optional()`: an absent value passes, a present
value must have length at most `n`. -/
def optMaxLen (n : Nat) (o : Option String) : Bool :=
  match o with
  | none => true
  | some s => s.length ≤ n

/-- The issues produced by `baseSchema`'s object parse, in key order:
`staffName`, `channel`, `otherChannel` (max 60, optional), `branch`
(optional, unconstrained), `category`, `otherCategory` (max 60,
optional), `purchased`/`outOfStock` (optional booleans), `wantedItem`
(min 1, max 120). -/
def baseIssues (r : RawInput) : List Issue :=
  check r.staffName.isSome ⟨"staffName", requiredMsg⟩
  ++ check r.channel.isSome ⟨"channel", requiredMsg⟩
  ++ check (optMaxLen 60 r.otherChannel) ⟨"otherChannel", tooBigMsg 60⟩
  ++ check r.category.isSome ⟨"category", requiredMsg⟩
  ++ check (optMaxLen 60 r.otherCategory) ⟨"otherCategory", tooBigMsg 60⟩
  ++ check r.wantedItem.isSome ⟨"wantedItem", requiredMsg⟩
  ++ check (match r.wantedItem with | none => true | some s => 1 ≤ s.length)
      ⟨"wantedItem", tooSmallMsg 1⟩
  ++ check (match r.wantedItem with | none => true | some s => s.length ≤ 120)
      ⟨"wantedItem", tooBigMsg 120⟩

/-- The parsed form extracted from a raw body whose base issues are
empty (each `getD` is only reached when the field is present, since a
missing required field contributes a `Required` issue). -/
def mkForm (r : RawInput) : InteractionForm :=
  { staffName := r.staffName.getD ""
    channel := r.channel.getD ""
    otherChannel := r.otherChannel
    branch := r.branch
    category := r.category.getD ""
    otherCategory := r.otherCategory
    purchased := r.purchased
    outOfStock := r.outOfStock
    wantedItem := r.wantedItem.getD "" }

/-- The `baseSchema` object parse: all issues, or the stripped form. -/
def baseParse (r : RawInput) : Except (List Issue) InteractionForm :=
  match baseIssues r with
  | [] => .ok (mkForm r)
  | is => .error is

/-- JavaScript's `String.prototype.trim`: strip leading and trailing
whitespace (modelled over the character list; the ASCII whitespace
characters are the ones that matter for this schema). -/
def jsTrim (s : String) : String :=
  String.mk
    (((s.data.dropWhile Char.isWhitespace).reverse.dropWhile Char.isWhitespace).reverse)

/-- JavaScript's `s && s.trim().length > 0` for a string `s` (the empty
string is falsy, and otherwise the trimmed length is tested). -/
def nonBlank (s : String) : Bool :=
  0 < (jsTrim s).length

/-- JavaScript's `o && o.trim().length > 0` for an optional string. -/
def optNonBlank (o : Option String) : Bool :=
  match o with
  | none => false
  | some s => nonBlank s

/-- The eight chained `.refine` calls of `interactionSchema`, run in
order on a successfully base-parsed value, aggregating every failing
refinement's issue (zod keeps running refinements after a `dirty`
status; only an aborted base parse skips them). -/
def refineIssues (d : InteractionForm) : List Issue :=
  check (nonBlank d.staffName) ⟨"staffName", "Please select a staff member"⟩
  ++ check (nonBlank d.channel) ⟨"channel", "Please select a channel"⟩
  ++ check (nonBlank d.category) ⟨"category", "Please select a category"⟩
  ++ check (if d.channel = "Other" then optNonBlank d.otherChannel else true)
      ⟨"otherChannel", "Please specify the channel"⟩
  ++ check (if d.channel = "In-store" then optNonBlank d.branch else true)
      ⟨"branch", "Branch is required for in-store interactions"⟩
  ++ check (if d.category = "Other" then optNonBlank d.otherCategory else true)
      ⟨"otherCategory", "Please specify the category"⟩
  ++ check (if d.channel = "In-store" ∨ d.channel = "WhatsApp" then d.purchased.isSome else true)
      ⟨"purchased", "Please specify if they made a purchase"⟩
  ++ check (if d.purchased = some false then d.outOfStock.isSome else true)
      ⟨"outOfStock", "Please specify if the item was in stock"⟩

/-- `interactionSchema.parse`: base parse, then the refinements. -/
def interactionSchemaParse (r : RawInput) : Except (List Issue) InteractionForm :=
  match baseParse r with
  | .error is => .error is
  | .ok d =>
    match refineIssues d with
    | [] => .ok d
    | is => .error is

/-- The issue list a failed parse reports (empty on success). -/
def parseErrors (r : RawInput) : List Issue :=
  match interactionSchemaParse r with
  | .error is => is
  | .ok _ => []

/-- The `InteractionPayload` the route builds from the validated data,
with `timestamp: new Date().toISOString()` supplied by the server. -/
structure InteractionPayload where
  timestamp : String
  staffName : String
  channel : String
  otherChannel : Option String
  branch : Option String
  category : String
  otherCategory : Option String
  purchased : Option Bool
  outOfStock : Option Bool
  wantedItem : String
deriving Repr, DecidableEq

/-- The row shape the route passes to
`supabase.from('interactions').insert([...])`. -/
structure InteractionRow where
  timestamp : String
  staff_name : String
  channel : String
  other_channel : Option String
  branch : Option String
  category : String
  other_category : Option String
  wanted_item : String
  purchased : Option Bool
  out_of_stock : Option Bool
deriving Repr, DecidableEq

/-- The JSON body of the route's `NextResponse.json` reply together
with its HTTP status.  A `none` field models an absent key: the route
never attaches a `details` key, its success reply carries only
`success` and `data`, and its failure replies only `success` and
`error`. -/
structure ApiResponse where
  success : Bool
  data : Option InteractionPayload
  error : Option String
  details : Option (List (String × String))
  status : Nat
deriving Repr, DecidableEq

/-- The payload construction in the route: the timestamp is the current
instant `now`; every other field is copied from the validated data. -/
def buildPayload (now : String) (v : InteractionForm) : InteractionPayload :=
  { timestamp := now
    staffName := v.staffName
    channel := v.channel
    otherChannel := v.otherChannel
    branch := v.branch
    category := v.category
    otherCategory := v.otherCategory
    purchased := v.purchased
    outOfStock := v.outOfStock
    wantedItem := v.wantedItem }

/-- The snake_case row the route inserts for a payload. -/
def toRow (p : InteractionPayload) : InteractionRow :=
  { timestamp := p.timestamp
    staff_name := p.staffName
    channel := p.channel
    other_channel := p.otherChannel
    branch := p.branch
    category := p.category
    other_category := p.otherCategory
    wanted_item := p.wantedItem
    purchased := p.purchased
    out_of_stock := p.outOfStock }

/-- A ZodError's `message`: the JSON serialization of its issue list
(each issue rendered with its message and its one-element path). -/
def issueJson (i : Issue) : String :=
  "\x7b \"message\": \"" ++ i.message ++ "\", \"path\": [\"" ++ i.path ++ "\"] \x7d"

/-- The serialized issue array a thrown ZodError carries as `message`. -/
def zodErrorMessage (issues : List Issue) : String :=
  "[" ++ String.intercalate ", " (issues.map issueJson) ++ "]"

/-- The `POST` handler of `src/app/api/interactions/route.ts`.
`now` is the server clock reading taken when the payload is built,
`supabaseConfigured` models the environment check on the Supabase URL
and key, and `dbError` models the error field of the insert's reply.
The second component lists the insert calls the handler issued: a body
rejected by `interactionSchema.parse` throws before the payload is
built, so the catch block answers 400 with the ZodError's message and
no insert happens; a database error after an attempted insert is
re-thrown as `Database error: ...` and also answered with 400. -/
def POST (now : String) (supabaseConfigured : Bool) (dbError : Option String)
    (body : RawInput) : ApiResponse × List InteractionRow :=
  match interactionSchemaParse body with
  | .error issues =>
    ({ success := false, data := none, error := some (zodErrorMessage issues),
       details := none, status := 400 }, [])
  | .ok v =>
    let payload := buildPayload now v
    if supabaseConfigured then
      match dbError with
      | some m =>
        ({ success := false, data := none, error := some ("Database error: " ++ m),
           details := none, status := 400 }, [toRow payload])
      | none =>
        ({ success := true, data := some payload, error := none,
           details := none, status := 200 }, [toRow payload])
    else
      ({ success := true, data := some payload, error := none,
         details := none, status := 200 }, [])

/-- The fields of the interaction form page. -/
inductive Field where
  | staffName | channel | otherChannel | branch | category
  | otherCategory | purchased | outOfStock | wantedItem
deriving Repr, DecidableEq

/-- The `InteractionsPage` answer state: react-hook-form's current
values, with text fields defaulting to the empty string and the two
booleans to `undefined`. -/
structure FormAnswers where
  staffName : String
  channel : String
  otherChannel : String
  branch : String
  category : String
  otherCategory : String
  purchased : Option Bool
  outOfStock : Option Bool
  wantedItem : String
deriving Repr, DecidableEq

/-- The fields `InteractionsPage` renders, in JSX order, as a function
of the watched `channel`, `category` and `purchased` values:
`otherChannel` iff channel is "Other", `branch` iff "In-store",
`otherCategory` iff category is "Other", `wantedItem` iff the watched
channel is truthy (non-empty), `purchased` iff channel is "In-store"
or "WhatsApp", and `outOfStock` iff `purchased === false`. -/
def visibleFields (a : FormAnswers) : List Field :=
  [.staffName, .channel]
  ++ (if a.channel = "Other" then [.otherChannel] else [])
  ++ (if a.channel = "In-store" then [.branch] else [])
  ++ [.category]
  ++ (if a.category = "Other" then [.otherCategory] else [])
  ++ (if a.channel ≠ "" then [.wantedItem] else [])
  ++ (if a.channel = "In-store" ∨ a.channel = "WhatsApp" then [.purchased] else [])
  ++ (if a.purchased = some false then [.outOfStock] else [])

/-- The required-field set the schema's refinements enforce, as a
function of the current answers: the four always-required fields plus
each conditionally required field under its trigger. -/
def requiredFields (a : FormAnswers) : List Field :=
  [.staffName, .channel, .category, .wantedItem]
  ++ (if a.channel = "Other" then [.otherChannel] else [])
  ++ (if a.channel = "In-store" then [.branch] else [])
  ++ (if a.category = "Other" then [.otherCategory] else [])
  ++ (if a.channel = "In-store" ∨ a.channel = "WhatsApp" then [.purchased] else [])
  ++ (if a.purchased = some false then [.outOfStock] else [])

/-! Helper lemmas about the parse pipeline. -/

lemma check_eq_nil {b : Bool} {i : Issue} : check b i = [] ↔ b = true := by
  cases b <;> simp [check]

lemma if_true_iff_imp {c : Prop} [Decidable c] {b : Bool} :
    (if c then b else true) = true ↔ (c → b = true) := by
  split <;> simp_all

lemma baseParse_ok_iff {r : RawInput} {d : InteractionForm} :
    baseParse r = .ok d ↔ baseIssues r = [] ∧ d = mkForm r := by
  unfold baseParse
  cases h : baseIssues r <;> simp [eq_comm]

lemma parse_ok_elim {r : RawInput} {d : InteractionForm}
    (h : interactionSchemaParse r = .ok d) :
    baseParse r = .ok d ∧ refineIssues d = [] := by
  unfold interactionSchemaParse at h
  split at h
  · cases h
  · split at h
    · cases h; constructor <;> simp_all
    · cases h

lemma parse_error_of_refine {r : RawInput} {d : InteractionForm} {x : Issue} {xs : List Issue}
    (hb : baseParse r = .ok d) (hr : refineIssues d = x :: xs) :
    interactionSchemaParse r = .error (x :: xs) := by
  unfold interactionSchemaParse
  rw [hb]
  simp [hr]

lemma refineIssues_eq_nil {d : InteractionForm} :
    refineIssues d = [] ↔
      (nonBlank d.staffName = true ∧ nonBlank d.channel = true ∧ nonBlank d.category = true ∧
       (d.channel = "Other" → optNonBlank d.otherChannel = true) ∧
       (d.channel = "In-store" → optNonBlank d.branch = true) ∧
       (d.category = "Other" → optNonBlank d.otherCategory = true) ∧
       (d.channel = "In-store" ∨ d.channel = "WhatsApp" → d.purchased.isSome = true) ∧
       (d.purchased = some false → d.outOfStock.isSome = true)) := by
  simp only [refineIssues, List.append_eq_nil, check_eq_nil, if_true_iff_imp]
  tauto

lemma baseIssues_eq_nil {r : RawInput} :
    baseIssues r = [] ↔
      (r.staffName.isSome = true ∧ r.channel.isSome = true ∧
       optMaxLen 60 r.otherChannel = true ∧ r.category.isSome = true ∧
       optMaxLen 60 r.otherCategory = true ∧ r.wantedItem.isSome = true ∧
       (match r.wantedItem with | none => true | some s => decide (1 ≤ s.length)) = true ∧
       (match r.wantedItem with | none => true | some s => decide (s.length ≤ 120)) = true) := by
  simp only [baseIssues, List.append_eq_nil, check_eq_nil]
  tauto

lemma optNonBlank_ne_none {o : Option String} (h : optNonBlank o = true) : o ≠ none := by
  cases o <;> simp [optNonBlank] at *

lemma parse_error_of_refine_ne {r : RawInput} {d : InteractionForm}
    (hb : baseParse r = .ok d) (hne : refineIssues d ≠ []) :
    interactionSchemaParse r = .error (refineIssues d) ∧ parseErrors r = refineIssues d := by
  cases hrl : refineIssues d with
  | nil => exact absurd hrl hne
  | cons x xs =>
    have hp := parse_error_of_refine hb hrl
    exact ⟨hp, by unfold parseErrors; rw [hp]⟩

lemma parse_ok_intro {r : RawInput} (hb : baseIssues r = [])
    (hr : refineIssues (mkForm r) = []) :
    interactionSchemaParse r = .ok (mkForm r) := by
  unfold interactionSchemaParse
  rw [show baseParse r = .ok (mkForm r) from baseParse_ok_iff.mpr ⟨hb, rfl⟩]
  simp [hr]

lemma parse_error_of_base {r : RawInput} {x : Issue} {xs : List Issue}
    (hb : baseIssues r = x :: xs) :
    (interactionSchemaParse r).isOk = false ∧ parseErrors r = x :: xs := by
  have hbp : baseParse r = .error (x :: xs) := by
    unfold baseParse
    rw [hb]
  have hp : interactionSchemaParse r = .error (x :: xs) := by
    unfold interactionSchemaParse
    rw [hbp]
  refine ⟨?_, ?_⟩
  · rw [hp]; rfl
  · unfold parseErrors; rw [hp]

/-! Concrete request bodies used to instantiate the theorems. -/

/-- A well-formed Phone-channel body carrying a superfluous `branch`
value. -/
def superfluousBranchInput : RawInput :=
  { staffName := some "Mohammed", channel := some "Phone", otherChannel := none,
    branch := some "Bridgetown", category := some "Games", otherCategory := none,
    purchased := none, outOfStock := none, wantedItem := some "Switch cartridge",
    timestamp := none }

/-- A fully specified valid In-store body. -/
def inStoreInput : RawInput :=
  { staffName := some "Shelly", channel := some "In-store", otherChannel := none,
    branch := some "Sheraton", category := some "Consoles", otherCategory := none,
    purchased := some true, outOfStock := none, wantedItem := some "PS5",
    timestamp := none }

/-- A minimal valid Phone-channel body. -/
def phoneInput : RawInput :=
  { staffName := some "Mohammed", channel := some "Phone", otherChannel := none,
    branch := none, category := some "Games", otherCategory := none,
    purchased := none, outOfStock := none, wantedItem := some "Switch cartridge",
    timestamp := none }

/-- Two answer states agreeing on `channel`, `category`, `purchased`
but differing elsewhere. -/
def answersA : FormAnswers :=
  { staffName := "Mohammed", channel := "In-store", otherChannel := "",
    branch := "Bridgetown", category := "Games", otherCategory := "",
    purchased := some false, outOfStock := some true, wantedItem := "PS5" }

def answersB : FormAnswers :=
  { answersA with staffName := "Shelly", branch := "", wantedItem := "", outOfStock := none }

/-- A 60-character string. -/
def str60 : String := String.mk (List.replicate 60 'a')

/-- A 61-character string. -/
def str61 : String := String.mk (List.replicate 61 'a')

/-- A 60-character string consisting solely of spaces. -/
def str60ws : String := String.mk (List.replicate 60 ' ')

/-- An otherwise-valid body with category "Other" and the given
`otherCategory` value. -/
def otherCategoryInput (oc : Option String) : RawInput :=
  { staffName := some "Kemar", channel := some "Phone", otherChannel := none,
    branch := none, category := some "Other", otherCategory := oc,
    purchased := none, outOfStock := none, wantedItem := some "Gift box",
    timestamp := none }

/-- An In-store body with no branch: the schema rejects it. -/
def missingBranchInput : RawInput :=
  { staffName := some "Kemar", channel := some "In-store", otherChannel := none,
    branch := none, category := some "Games", otherCategory := none,
    purchased := some true, outOfStock := none, wantedItem := some "PS5 controller",
    timestamp := none }

/-- Scenario C of the spec, completed with a staff member name: a
WhatsApp interaction with category "Other", `purchased = false` and
`outOfStock` left undefined. -/
def scenarioCInput (sn : String) : RawInput :=
  { staffName := some sn, channel := some "WhatsApp", otherChannel := none,
    branch := none, category := some "Other", otherCategory := some "Gift wrap",
    purchased := some false, outOfStock := none, wantedItem := some "Gift box",
    timestamp := none }

/-- Variations of `phoneInput` with one whitespace-only field each. -/
def blankWantedItemInput : RawInput :=
  { phoneInput with wantedItem := some " " }

def blankStaffInput : RawInput :=
  { phoneInput with staffName := some " " }

def blankChannelInput : RawInput :=
  { phoneInput with channel := some " " }

def blankCategoryInput : RawInput :=
  { phoneInput with category := some " " }

def blankOtherChannelInput : RawInput :=
  { phoneInput with channel := some "Other", otherChannel := some " " }

def blankBranchInput : RawInput :=
  { phoneInput with channel := some "In-store", branch := some " ", purchased := some true }

def blankOtherCategoryInput : RawInput :=
  { phoneInput with category := some "Other", otherCategory := some " " }

/-- A Phone-channel body with a superfluous `purchased = false` and no
`outOfStock`. -/
def phonePurchasedFalseInput : RawInput :=
  { phoneInput with purchased := some false }

/-! The claims. -/

/-- Claim C1, counterexample: the claimed biconditional "branch is
defined iff channel is In-store" fails on accepted records.  The
validator accepts `superfluousBranchInput`, whose channel is "Phone"
and whose branch is set: a superfluous `branch` is accepted silently,
not rejected as a violation. -/
theorem C1_counterexample :
    ¬ (∀ (r : RawInput) (d : InteractionForm), interactionSchemaParse r = .ok d →
        (d.branch ≠ none ↔ d.channel = "In-store")) := by
  intro hall
  have hok : interactionSchemaParse superfluousBranchInput
      = .ok (mkForm superfluousBranchInput) := by rfl
  have h := (hall _ _ hok).mp (by decide)
  exact absurd h (by decide)

/-- Claim C1, amended: for every record accepted by the validator the
forward implications hold — channel "Other" forces `otherChannel`
defined, channel "In-store" forces `branch` defined, category "Other"
forces `otherCategory` defined, channel In-store or WhatsApp forces
`purchased` defined, and `purchased = false` forces `outOfStock`
defined.  The converse directions do not hold: superfluous conditional
fields are accepted silently. -/
theorem C1_amended_conditional_fields (r : RawInput) (d : InteractionForm)
    (h : interactionSchemaParse r = .ok d) :
    (d.channel = "Other" → d.otherChannel ≠ none) ∧
    (d.channel = "In-store" → d.branch ≠ none) ∧
    (d.category = "Other" → d.otherCategory ≠ none) ∧
    (d.channel = "In-store" ∨ d.channel = "WhatsApp" → d.purchased ≠ none) ∧
    (d.purchased = some false → d.outOfStock ≠ none) := by
  obtain ⟨hb, hr⟩ := parse_ok_elim h
  rw [refineIssues_eq_nil] at hr
  obtain ⟨-, -, -, h4, h5, h6, h7, h8⟩ := hr
  refine ⟨fun hc => optNonBlank_ne_none (h4 hc),
          fun hc => optNonBlank_ne_none (h5 hc),
          fun hc => optNonBlank_ne_none (h6 hc),
          fun hc => ?_, fun hc => ?_⟩
  · have := h7 hc; simpa [Option.isSome_iff_ne_none] using this
  · have := h8 hc; simpa [Option.isSome_iff_ne_none] using this

/-- Claim C1, witness: the amended theorem applied to an accepted
In-store record. -/
theorem C1_amended_witness :
    (mkForm inStoreInput).channel = "In-store" ∧ (mkForm inStoreInput).branch ≠ none :=
  ⟨by decide,
   (C1_amended_conditional_fields inStoreInput (mkForm inStoreInput) (by rfl)).2.1 (by decide)⟩

/-- Claim C2: the validator accepts a body only if the always-required
fields `staffName`, `channel`, `category`, `wantedItem` are present and
non-empty (the first three non-blank after trimming, `wantedItem` of
length at least one), and each conditionally required field is present
and non-blank under its trigger: `otherChannel` when channel is
"Other", `branch` when "In-store", `otherCategory` when category is
"Other", `purchased` when channel is In-store or WhatsApp, and
`outOfStock` when `purchased = false`. -/
theorem C2_accept_requires (r : RawInput) (d : InteractionForm)
    (h : interactionSchemaParse r = .ok d) :
    (r.staffName = some d.staffName ∧ nonBlank d.staffName = true) ∧
    (r.channel = some d.channel ∧ nonBlank d.channel = true) ∧
    (r.category = some d.category ∧ nonBlank d.category = true) ∧
    (r.wantedItem = some d.wantedItem ∧ 1 ≤ d.wantedItem.length) ∧
    (d.channel = "Other" → optNonBlank d.otherChannel = true) ∧
    (d.channel = "In-store" → optNonBlank d.branch = true) ∧
    (d.category = "Other" → optNonBlank d.otherCategory = true) ∧
    (d.channel = "In-store" ∨ d.channel = "WhatsApp" → d.purchased.isSome = true) ∧
    (d.purchased = some false → d.outOfStock.isSome = true) := by
  obtain ⟨hb, hr⟩ := parse_ok_elim h
  rw [baseParse_ok_iff] at hb
  obtain ⟨hbase, rfl⟩ := hb
  rw [refineIssues_eq_nil] at hr
  obtain ⟨hr1, hr2, hr3, hr4, hr5, hr6, hr7, hr8⟩ := hr
  rw [baseIssues_eq_nil] at hbase
  obtain ⟨hs, hc, -, hca, -, hw, hw1, -⟩ := hbase
  cases hsn : r.staffName with
  | none => rw [hsn] at hs; cases hs
  | some s =>
  cases hch : r.channel with
  | none => rw [hch] at hc; cases hc
  | some ch =>
  cases hcat : r.category with
  | none => rw [hcat] at hca; cases hca
  | some ca =>
  cases hwi : r.wantedItem with
  | none => rw [hwi] at hw; cases hw
  | some w =>
  rw [hwi] at hw1
  refine ⟨⟨?_, ?_⟩, ⟨?_, ?_⟩, ⟨?_, ?_⟩, ⟨?_, ?_⟩, hr4, hr5, hr6, hr7, hr8⟩ <;>
    simp_all [mkForm]

/-- Claim C2, witness: the theorem applied to an accepted Phone-channel
record. -/
theorem C2_witness :
    phoneInput.staffName = some (mkForm phoneInput).staffName ∧
    nonBlank (mkForm phoneInput).staffName = true ∧
    1 ≤ (mkForm phoneInput).wantedItem.length :=
  ⟨(C2_accept_requires phoneInput (mkForm phoneInput) (by rfl)).1.1,
   (C2_accept_requires phoneInput (mkForm phoneInput) (by rfl)).1.2,
   (C2_accept_requires phoneInput (mkForm phoneInput) (by rfl)).2.2.2.1.2⟩

/-- Claim C3: the derived required-field and visible-field sets are a
deterministic pure function of the current `channel`, `category` and
`purchased` values alone — two answer states agreeing on those three
values derive identical sets, and re-running the derivation on the
same state yields the same result. -/
theorem C3_pure_function (a b : FormAnswers)
    (hch : a.channel = b.channel) (hca : a.category = b.category)
    (hp : a.purchased = b.purchased) :
    requiredFields a = requiredFields b ∧ visibleFields a = visibleFields b ∧
    requiredFields a = requiredFields a ∧ visibleFields a = visibleFields a := by
  refine ⟨?_, ?_, rfl, rfl⟩ <;> simp [requiredFields, visibleFields, hch, hca, hp]

/-- Claim C3, witness: the theorem applied to two concrete answer
states agreeing only on `channel`, `category`, `purchased`. -/
theorem C3_witness :
    answersA.channel = answersB.channel ∧ answersA.category = answersB.category ∧
    answersA.purchased = answersB.purchased ∧
    requiredFields answersA = requiredFields answersB ∧
    visibleFields answersA = visibleFields answersB :=
  ⟨rfl, rfl, rfl,
   (C3_pure_function answersA answersB rfl rfl rfl).1,
   (C3_pure_function answersA answersB rfl rfl rfl).2.1⟩

/-- Claim C4, counterexample: the universal claim "for every
otherwise-valid answer set with category Other, an `otherCategory` of
length exactly 60 is accepted" fails: `otherCategoryInput` is
otherwise valid (it is accepted with the value "Gift wrap"), yet the
60-character whitespace-only value `str60ws` is rejected — the trim
refinement attributes an error to `otherCategory` even though the
length bound is met. -/
theorem C4_counterexample :
    str60ws.length = 60 ∧
    (interactionSchemaParse (otherCategoryInput (some "Gift wrap"))).isOk = true ∧
    (interactionSchemaParse (otherCategoryInput (some str60ws))).isOk = false ∧
    (parseErrors (otherCategoryInput (some str60ws))).map Issue.path = ["otherCategory"] := by
  decide

/-- Claim C4, amended: for every answer set the validator accepts whose
category is "Other" (an otherwise-valid answer set), replacing its
`otherCategory` by any length-60 string that is non-blank after
trimming yields an accepted set; replacing it by any length-61 string
yields a rejected set with an error attributed to `otherCategory`
(the max-60 bound); and replacing it by the empty string yields a
rejected set with an error attributed to `otherCategory` (the trim
refinement). -/
theorem C4_amended (r : RawInput) (d : InteractionForm) (s : String)
    (h : interactionSchemaParse r = .ok d) (hcat : d.category = "Other") :
    (s.length = 60 → nonBlank s = true →
      (interactionSchemaParse { r with otherCategory := some s }).isOk = true) ∧
    (s.length = 61 →
      (interactionSchemaParse { r with otherCategory := some s }).isOk = false ∧
      (⟨"otherCategory", tooBigMsg 60⟩ : Issue)
        ∈ parseErrors { r with otherCategory := some s }) ∧
    ((interactionSchemaParse { r with otherCategory := some "" }).isOk = false ∧
      (⟨"otherCategory", "Please specify the category"⟩ : Issue)
        ∈ parseErrors { r with otherCategory := some "" }) := by
  obtain ⟨sn, ch, oc, br, ca, ocg, pu, os, wi, ts⟩ := r
  obtain ⟨hb, hr⟩ := parse_ok_elim h
  rw [baseParse_ok_iff] at hb
  obtain ⟨hbase, hd⟩ := hb
  subst hd
  have hcomp := refineIssues_eq_nil.mp hr
  obtain ⟨hr1, hr2, hr3, hr4, hr5, hr6, hr7, hr8⟩ := hcomp
  have hbcomp := baseIssues_eq_nil.mp hbase
  obtain ⟨hs1, hs2, hs3, hs4, hs5, hs6, hs7, hs8⟩ := hbcomp
  refine ⟨?_, ?_, ?_⟩
  · intro hs60 hnb
    have hb' : baseIssues ⟨sn, ch, oc, br, ca, some s, pu, os, wi, ts⟩ = [] := by
      rw [baseIssues_eq_nil]
      exact ⟨hs1, hs2, hs3, hs4, by simp [optMaxLen, hs60], hs6, hs7, hs8⟩
    have hr' : refineIssues (mkForm ⟨sn, ch, oc, br, ca, some s, pu, os, wi, ts⟩) = [] := by
      rw [refineIssues_eq_nil]
      exact ⟨hr1, hr2, hr3, hr4, hr5,
        fun _ => by simpa [optNonBlank] using hnb, hr7, hr8⟩
    rw [parse_ok_intro hb' hr']
    rfl
  · intro hs61
    have hmem : (⟨"otherCategory", tooBigMsg 60⟩ : Issue)
        ∈ baseIssues ⟨sn, ch, oc, br, ca, some s, pu, os, wi, ts⟩ := by
      simp [baseIssues, check, optMaxLen, hs61]
    cases hbr : baseIssues ⟨sn, ch, oc, br, ca, some s, pu, os, wi, ts⟩ with
    | nil => rw [hbr] at hmem; cases hmem
    | cons x xs =>
      obtain ⟨h1, h2⟩ := parse_error_of_base hbr
      rw [hbr] at hmem
      exact ⟨h1, h2 ▸ hmem⟩
  · have hb' : baseIssues ⟨sn, ch, oc, br, ca, some "", pu, os, wi, ts⟩ = [] := by
      rw [baseIssues_eq_nil]
      exact ⟨hs1, hs2, hs3, hs4, by simp [optMaxLen], hs6, hs7, hs8⟩
    have hcat2 : ca.getD "" = "Other" := hcat
    have hmem : (⟨"otherCategory", "Please specify the category"⟩ : Issue)
        ∈ refineIssues (mkForm ⟨sn, ch, oc, br, ca, some "", pu, os, wi, ts⟩) := by
      simp [refineIssues, mkForm, check, hcat2, optNonBlank,
        show nonBlank "" = false from rfl]
    have hne := List.ne_nil_of_mem hmem
    obtain ⟨hpe, hpe2⟩ :=
      parse_error_of_refine_ne (baseParse_ok_iff.mpr ⟨hb', rfl⟩) hne
    refine ⟨by rw [hpe]; rfl, ?_⟩
    rw [hpe2]
    exact hmem

/-- Claim C4, witness: the amended theorem applied to the accepted body
`otherCategoryInput (some "Gift wrap")` with the concrete length-60,
length-61 and empty replacement values. -/
theorem C4_witness :
    (interactionSchemaParse
      { otherCategoryInput (some "Gift wrap") with otherCategory := some str60 }).isOk = true ∧
    (interactionSchemaParse
      { otherCategoryInput (some "Gift wrap") with otherCategory := some str61 }).isOk = false ∧
    (interactionSchemaParse
      { otherCategoryInput (some "Gift wrap") with otherCategory := some "" }).isOk = false :=
  ⟨(C4_amended (otherCategoryInput (some "Gift wrap"))
      (mkForm (otherCategoryInput (some "Gift wrap"))) str60
      (by rfl) (by decide)).1 (by decide) (by decide),
   ((C4_amended (otherCategoryInput (some "Gift wrap"))
      (mkForm (otherCategoryInput (some "Gift wrap"))) str61
      (by rfl) (by decide)).2.1 (by decide)).1,
   ((C4_amended (otherCategoryInput (some "Gift wrap"))
      (mkForm (otherCategoryInput (some "Gift wrap"))) str60
      (by rfl) (by decide)).2.2).1⟩

/-- Claim C5, counterexample: a validation failure is answered with
status 400 and `success = false`, but the response carries no
`details` key at all — the failure is not a field-keyed mapping, so the
claimed structured `details` object is absent. -/
theorem C5_counterexample :
    (interactionSchemaParse missingBranchInput).isOk = false ∧
    (POST "2026-10-11T12:00:00.000Z" true none missingBranchInput).1.success = false ∧
    (POST "2026-10-11T12:00:00.000Z" true none missingBranchInput).1.status = 400 ∧
    (POST "2026-10-11T12:00:00.000Z" true none missingBranchInput).1.details = none := by
  decide

/-- Claim C5, amended: on a body that fails validation the handler
returns status 400 with `success = false`, no `data`, no `details`
object, and `error` set to the thrown ZodError's message — the JSON
serialization of the issue list, in which each issue carries its field
path and human-readable message — and issues no insert. -/
theorem C5_amended_error_string (now : String) (cfg : Bool) (dbe : Option String)
    (r : RawInput) (h : (interactionSchemaParse r).isOk = false) :
    (POST now cfg dbe r).1 =
      { success := false, data := none,
        error := some (zodErrorMessage (parseErrors r)),
        details := none, status := 400 } ∧
    (POST now cfg dbe r).2 = [] := by
  unfold POST
  split
  next issues heq => simp [parseErrors, heq]
  next v heq => rw [heq] at h; exact Bool.noConfusion h

/-- Claim C5, witness: the amended theorem applied to a concrete
invalid body. -/
theorem C5_amended_witness :
    (interactionSchemaParse missingBranchInput).isOk = false ∧
    (POST "T0" true none missingBranchInput).1 =
      { success := false, data := none,
        error := some (zodErrorMessage (parseErrors missingBranchInput)),
        details := none, status := 400 } ∧
    (POST "T0" true none missingBranchInput).2 = [] :=
  ⟨by decide,
   (C5_amended_error_string "T0" true none missingBranchInput (by decide)).1,
   (C5_amended_error_string "T0" true none missingBranchInput (by decide)).2⟩

/-- Claim C6: the timestamp of every payload the handler returns and of
every row it inserts is the server-side instant `now` taken at
acceptance, and a `timestamp` field supplied in the request body has no
effect whatsoever on the handler's response or inserts. -/
theorem C6_timestamp_server_side (now : String) (cfg : Bool) (dbe : Option String)
    (r : RawInput) (t : Option String) :
    (POST now cfg dbe r).1.data.map InteractionPayload.timestamp =
      (POST now cfg dbe r).1.data.map (fun _ => now) ∧
    (POST now cfg dbe r).2.map InteractionRow.timestamp =
      (POST now cfg dbe r).2.map (fun _ => now) ∧
    POST now cfg dbe { r with timestamp := t } = POST now cfg dbe r := by
  obtain ⟨sn, ch, oc, br, ca, ocg, pu, os, wi, ts⟩ := r
  refine ⟨?_, ?_, rfl⟩ <;>
  · unfold POST
    split
    · rfl
    · cases cfg with
      | false => rfl
      | true => cases dbe <;> rfl

/-- Claim C7: Scenario C — a WhatsApp interaction with category
"Other", `otherCategory` "Gift wrap", `purchased = false`, `outOfStock`
undefined and `wantedItem` "Gift box" (completed with any non-blank
staff name, since the scenario elides the always-required `staffName`)
— is rejected with exactly one validation error, attributed to
`outOfStock`. -/
theorem C7_scenarioC (sn : String) (h : nonBlank sn = true) :
    interactionSchemaParse (scenarioCInput sn) =
      .error [⟨"outOfStock", "Please specify if the item was in stock"⟩] := by
  have hb : baseParse (scenarioCInput sn) = .ok (mkForm (scenarioCInput sn)) := by rfl
  have hr : refineIssues (mkForm (scenarioCInput sn)) =
      [⟨"outOfStock", "Please specify if the item was in stock"⟩] := by
    unfold refineIssues
    rw [show (mkForm (scenarioCInput sn)).staffName = sn from rfl, h]
    rfl
  exact parse_error_of_refine hb hr

/-- Claim C7, witness: the theorem applied with a concrete staff
name. -/
theorem C7_witness :
    interactionSchemaParse (scenarioCInput "Mohammed") =
      .error [⟨"outOfStock", "Please specify if the item was in stock"⟩] :=
  C7_scenarioC "Mohammed" (by decide)

/-- Claim C8: `wantedItem` is checked without trimming, so a
whitespace-only `wantedItem` passes validation; whereas whitespace-only
values for `staffName`, `channel`, `category`, and — when their
triggers hold — `otherChannel`, `branch`, `otherCategory` are each
rejected with the error attributed to that field, because their checks
trim before testing non-emptiness. -/
theorem C8_trim_asymmetry :
    (interactionSchemaParse blankWantedItemInput).isOk = true ∧
    (parseErrors blankStaffInput).map Issue.path = ["staffName"] ∧
    (parseErrors blankChannelInput).map Issue.path = ["channel"] ∧
    (parseErrors blankCategoryInput).map Issue.path = ["category"] ∧
    (parseErrors blankOtherChannelInput).map Issue.path = ["otherChannel"] ∧
    (parseErrors blankBranchInput).map Issue.path = ["branch"] ∧
    (parseErrors blankOtherCategoryInput).map Issue.path = ["otherCategory"] := by
  decide

/-- Claim C9: the `outOfStock` requirement is triggered by
`purchased = false` alone, for every base-valid body and regardless of
its channel: when `purchased = false` and `outOfStock` is undefined,
validation fails and an issue attributed to `outOfStock` is
reported. -/
theorem C9_outOfStock_independent_of_channel (r : RawInput) (d : InteractionForm)
    (hb : baseParse r = .ok d) (hp : d.purchased = some false) (ho : d.outOfStock = none) :
    (⟨"outOfStock", "Please specify if the item was in stock"⟩ : Issue) ∈ parseErrors r ∧
    (interactionSchemaParse r).isOk = false := by
  have hmem : (⟨"outOfStock", "Please specify if the item was in stock"⟩ : Issue)
      ∈ refineIssues d := by
    unfold refineIssues
    rw [hp, ho]
    simp [check]
  have hne : refineIssues d ≠ [] := List.ne_nil_of_mem hmem
  obtain ⟨hpe, hpe2⟩ := parse_error_of_refine_ne hb hne
  rw [hpe2]
  refine ⟨hmem, ?_⟩
  rw [hpe]
  rfl

/-- Claim C9, witness: the theorem applied to a Phone-channel body with
a superfluous `purchased = false` and no `outOfStock`. -/
theorem C9_witness :
    (mkForm phonePurchasedFalseInput).purchased = some false ∧
    (mkForm phonePurchasedFalseInput).outOfStock = none ∧
    (⟨"outOfStock", "Please specify if the item was in stock"⟩ : Issue)
      ∈ parseErrors phonePurchasedFalseInput ∧
    (interactionSchemaParse phonePurchasedFalseInput).isOk = false :=
  ⟨by decide, by decide,
   (C9_outOfStock_independent_of_channel phonePurchasedFalseInput
     (mkForm phonePurchasedFalseInput) (by rfl) (by decide) (by decide)).1,
   (C9_outOfStock_independent_of_channel phonePurchasedFalseInput
     (mkForm phonePurchasedFalseInput) (by rfl) (by decide) (by decide)).2⟩

/-- Claim C10: validation strictly precedes the insert — for every body
that fails schema validation, the handler issues no insert at all and
answers a failure response with status 400. -/
theorem C10_no_insert_on_invalid (now : String) (cfg : Bool) (dbe : Option String)
    (r : RawInput) (h : (interactionSchemaParse r).isOk = false) :
    (POST now cfg dbe r).2 = [] ∧ (POST now cfg dbe r).1.success = false ∧
    (POST now cfg dbe r).1.status = 400 := by
  unfold POST
  split
  · exact ⟨rfl, rfl, rfl⟩
  next v heq => rw [heq] at h; exact Bool.noConfusion h

/-- Claim C10, witness: the theorem applied to a concrete invalid
body. -/
theorem C10_witness :
    (interactionSchemaParse blankStaffInput).isOk = false ∧
    (POST "T1" true none blankStaffInput).2 = [] ∧
    (POST "T1" true none blankStaffInput).1.success = false ∧
    (POST "T1" true none blankStaffInput).1.status = 400 :=
  ⟨by decide,
   (C10_no_insert_on_invalid "T1" true none blankStaffInput (by decide)).1,
   (C10_no_insert_on_invalid "T1" true none blankStaffInput (by decide)).2.1,
   (C10_no_insert_on_invalid "T1" true none blankStaffInput (by decide)).2.2⟩

end PlayForm
